import Mathlib

/-
Verification of the openclaw atlas automation core and the matrix
device-list sanitizer.

The development is a shallow embedding of two TypeScript sources:

* the atlas prompt orchestration (canUseAtlas, ensureAtlasCdpUrl,
  findPromptInput, readStableText, runAtlasPrompt), and
* the matrix client device-list sanitizer (sanitizeUserIdList and the
  patched updateSyncData wrapper in createMatrixClient).

External collaborators (browser lifecycle calls, the playwright control
module, the page itself) are modelled as environment records holding the
outcome of each awaited call, in call order.  Thrown JavaScript values are
modelled by an explicit error type; async functions become functions into
Except.  Wall-clock time in the polling loops is modelled by explicit
millisecond counters: each wait advances the counter by the amount the
source passes to the corresponding timer primitive.
-/

set_option maxHeartbeats 1000000

namespace OpenClaw

/-- A thrown JavaScript value at the atlas boundary: either the dedicated
AtlasUnavailableError carrying its message, or any other fault described by
its string rendering, as produced by the template literals in the source. -/
inductive Fault where
  | atlasUnavailable (message : String)
  | other (desc : String)
  deriving DecidableEq, Repr

/-- Rendering of a thrown value, as the JS String(err) coercion produces it:
an Error instance renders as name, colon, message. -/
def faultDesc : Fault → String
  | Fault.atlasUnavailable m => "AtlasUnavailableError: " ++ m
  | Fault.other d => d

/-- Whitespace as recognised by the JavaScript trim of the inputs found in
this code base (ASCII space, tab, newline, carriage return). -/
def isJsSpace (c : Char) : Bool :=
  c == ' ' || c == '\t' || c == '\n' || c == '\r'

/-- Drop leading whitespace characters. -/
def dropLeadingSpace : List Char → List Char
  | [] => []
  | c :: cs => if isJsSpace c then dropLeadingSpace cs else c :: cs

/-- Model of the JavaScript String.prototype.trim call: strip whitespace
from both ends.  Implemented structurally so that it evaluates. -/
def jsTrim (s : String) : String :=
  String.mk (List.reverse (dropLeadingSpace (List.reverse (dropLeadingSpace s.toList))))

/-- JavaScript falsy-or on strings: the empty string selects the fallback. -/
def jsOr (a b : String) : String := if a = "" then b else a

/-- Optional-chaining trim, as in the source expression
status.cdpUrl?.trim(): a missing value collapses to the empty string once
the falsy-or runs. -/
def optTrim : Option String → String
  | some s => jsTrim s
  | none => ""

/-- Result of a browser status query: whether the browser is running and
the optional CDP connection URL it reports. -/
structure BrowserStatus where
  running : Bool
  cdpUrl : Option String

/-- The fields of a resolved atlas browser profile read by the
orchestration: its name and its last-known CDP connection URL. -/
structure ProfileInfo where
  name : String
  cdpUrl : Option String

/-- Outcomes of the browser lifecycle calls made by ensureAtlasCdpUrl, in
call order: the first status query, the start request, and the re-query. -/
structure CdpEnv where
  statusBefore : Except Fault BrowserStatus
  startResult : Except Fault Unit
  statusAfter : Except Fault BrowserStatus

def msgSandboxed : String := "Atlas is not available in sandboxed sessions."

def msgNoProfile : String := "Atlas profile is not configured."

def msgNoPlaywright : String := "Playwright is not available for Atlas automation."

def msgNoCdpUrl : String := "Atlas profile has no CDP URL."

def msgNotReachable (d : String) : String := "Atlas browser is not reachable: " ++ d

def msgPromptFailed (d : String) : String := "Atlas prompt failed: " ++ d

def msgEmptyResponse : String := "ChatGPT returned an empty response."

def inputNotFoundMsg : String :=
  "ChatGPT input not found. Open Atlas, sign in to ChatGPT, then try again."

/-- The try block of ensureAtlasCdpUrl: query status, issue a start and
re-query when not running, then take the first non-empty trimmed CDP URL
from the live status or the profile; throw AtlasUnavailableError when none
remains. -/
def ensureAtlasCdpUrlBody (env : CdpEnv) (profileCdpUrl : Option String) :
    Except Fault String := do
  let st ← env.statusBefore
  let st2 ←
    if st.running then
      pure st
    else do
      let _ ← env.startResult
      env.statusAfter
  let cdpUrl := jsOr (optTrim st2.cdpUrl) (jsOr (optTrim profileCdpUrl) "")
  if cdpUrl = "" then
    Except.error (Fault.atlasUnavailable msgNoCdpUrl)
  else
    pure cdpUrl

/-- ensureAtlasCdpUrl with its catch clause: an AtlasUnavailableError is
rethrown unchanged, every other fault is rewrapped with the
not-reachable message carrying the original description. -/
def ensureAtlasCdpUrl (env : CdpEnv) (profileCdpUrl : Option String) :
    Except Fault String :=
  match ensureAtlasCdpUrlBody env profileCdpUrl with
  | Except.ok u => Except.ok u
  | Except.error (Fault.atlasUnavailable m) => Except.error (Fault.atlasUnavailable m)
  | Except.error (Fault.other d) => Except.error (Fault.atlasUnavailable (msgNotReachable d))

/-- Behaviour of one selector strategy of findPromptInput against the live
page: the absolute time (ms from call start) at which the element becomes
visible, if ever, and whether the element answers the isEnabled probe
positively (a failing probe is caught and collapses to false). -/
structure SelectorBehavior where
  visibleAt : Option Nat
  enabled : Bool
  deriving DecidableEq, Repr

/-- One waitFor visibility wait starting at time t with timeout w: succeeds
at the moment the element is visible when that falls inside the window,
otherwise times out after w elapses. -/
def waitForVisible (b : SelectorBehavior) (t w : Nat) : Option Nat :=
  match b.visibleAt with
  | some vt => if vt ≤ t + w then some (max t vt) else none
  | none => none

/-- The per-strategy wait computed by findPromptInput from the shared
deadline and the current clock. -/
def selectorWait (deadline t : Nat) : Nat := min 2500 (max 500 (deadline - t))

/-- The strategy loop of findPromptInput over the remaining selector
indices, carrying the clock.  A zero wait breaks out to the failure throw
(dead in practice because the wait is clamped to at least 500); a timed-out
or found-but-disabled strategy falls through to the next selector; a
visible and enabled match returns the strategy index and the time of the
match. -/
def findPromptInputGo (env : Nat → SelectorBehavior) (deadline : Nat) :
    List Nat → Nat → Except Fault (Nat × Nat)
  | [], _ => Except.error (Fault.atlasUnavailable inputNotFoundMsg)
  | i :: rest, t =>
    if selectorWait deadline t = 0 then
      Except.error (Fault.atlasUnavailable inputNotFoundMsg)
    else
      match waitForVisible (env i) t (selectorWait deadline t) with
      | some tFound =>
        if (env i).enabled then
          Except.ok (i, tFound)
        else
          findPromptInputGo env deadline rest tFound
      | none => findPromptInputGo env deadline rest (t + selectorWait deadline t)

/-- findPromptInput: four selector strategies in fixed priority order
(indices 0 to 3 stand for the id selector, the test-id selector, the
placeholder selector and the generic textarea fallback), one shared
deadline of max 2000 timeoutMs counted from call start at clock 0. -/
def findPromptInput (env : Nat → SelectorBehavior) (timeoutMs : Nat) :
    Except Fault (Nat × Nat) :=
  findPromptInputGo env (max 2000 timeoutMs) [0, 1, 2, 3] 0

/-- Observable outcome of the readStableText loop: the returned text, how
many samples the loop consumed, and whether it returned through the
stability branch (as opposed to running out of budget). -/
structure ReadOutcome where
  text : String
  consumed : Nat
  stable : Bool
  deriving DecidableEq, Repr

/-- The polling loop of readStableText over the list of samples the budget
allows, carrying the previous sample and the stability counter.  A sample
equal to the non-empty previous sample bumps the counter, anything else
resets it; the loop returns through the stability branch once the counter
reaches 3 on a non-empty sample, and otherwise returns the last sample
when the samples run out. -/
def nextTicks (text last : String) (ticks : Nat) : Nat :=
  if text ≠ "" ∧ text = last then ticks + 1 else 0

def readStableLoop : List String → String → Nat → ReadOutcome
  | [], last, _ => { text := last, consumed := 0, stable := false }
  | sample :: rest, last, ticks =>
    if 3 ≤ nextTicks (jsTrim sample) last ticks ∧ jsTrim sample ≠ "" then
      { text := jsTrim sample, consumed := 1, stable := true }
    else
      { text := (readStableLoop rest (jsTrim sample) (nextTicks (jsTrim sample) last ticks)).text
        consumed :=
          (readStableLoop rest (jsTrim sample) (nextTicks (jsTrim sample) last ticks)).consumed + 1
        stable := (readStableLoop rest (jsTrim sample) (nextTicks (jsTrim sample) last ticks)).stable }

/-- Number of loop iterations the wall-clock budget allows: the loop body
runs at clock 400 times i and iterates while that is below timeoutMs, so
the sample count is timeoutMs divided by 400, rounded up. -/
def numSamples (timeoutMs : Nat) : Nat := (timeoutMs + 399) / 400

/-- The raw innerText reads the loop would perform, one per allowed
iteration (a failing read is already collapsed to the empty string by the
catch in the source). -/
def sampleList (samples : Nat → String) (timeoutMs : Nat) : List String :=
  (List.range (numSamples timeoutMs)).map samples

/-- readStableText with its full observable outcome. -/
def readStableTextFull (samples : Nat → String) (timeoutMs : Nat) : ReadOutcome :=
  readStableLoop (sampleList samples timeoutMs) "" 0

/-- readStableText: the text the stability reader returns for the given
stream of raw reads and wall-clock budget. -/
def readStableText (samples : Nat → String) (timeoutMs : Nat) : String :=
  (readStableTextFull samples timeoutMs).text

/-- The successful result of one prompt run: response text and elapsed
milliseconds. -/
structure AtlasPromptResult where
  text : String
  tookMs : Nat
  deriving DecidableEq, Repr

/-- Page lifecycle events observable during one runAtlasPrompt call. -/
inductive Ev where
  | pageOpened (targetId : String)
  | pageClosed (targetId : String)
  deriving DecidableEq, Repr

/-- The caller-supplied options of runAtlasPrompt. -/
structure RunOpts where
  sandboxed : Bool
  prompt : String
  timeoutMs : Nat
  url : Option String

/-- Outcomes of the awaited collaborator calls of one runAtlasPrompt run,
in call order.  profileResult is the outcome of resolveAtlasProfile (which
may throw out of resolveBrowserConfig); pwAvailable states whether the
soft-loaded playwright module exists with both required methods; createPage
yields the target id of the freshly opened page; the remaining fields are
the outcomes of the steps inside the try block.  stableText is the value
readStableText returns (that reader never throws), and closeResult is the
outcome of the best-effort page close whose error the source discards. -/
structure RunEnv where
  profileResult : Except Fault (Option ProfileInfo)
  pwAvailable : Bool
  cdp : CdpEnv
  createPage : Except Fault String
  getPage : Except Fault Unit
  loadStateResult : Except Fault Unit
  findInput : Except Fault Unit
  baselineCount : Except Fault Nat
  fillResult : Except Fault Unit
  waitMessage : Except Fault Unit
  stableText : String
  elapsedMs : Nat
  closeResult : Except Fault Unit

/-- The try block of runAtlasPrompt: fetch the page handle, wait for the
load state (failure discarded), locate the input, count the baseline
messages, fill the prompt, submit (the submit helper swallows all its
failures), await the assistant message, read the stable text, and reject
an empty final text. -/
def atlasTryBody (env : RunEnv) : Except Fault AtlasPromptResult := do
  let _ ← env.getPage
  let _ := env.loadStateResult
  let _ ← env.findInput
  let _ ← env.baselineCount
  let _ ← env.fillResult
  let _ ← env.waitMessage
  let text := env.stableText
  if text = "" then
    Except.error (Fault.atlasUnavailable msgEmptyResponse)
  else
    pure { text := text, tookMs := env.elapsedMs }

/-- The catch clause of runAtlasPrompt: an AtlasUnavailableError passes
unchanged, any other fault is rewrapped with the prompt-failed message
carrying the original description. -/
def wrapAtlasError : Fault → Fault
  | Fault.atlasUnavailable m => Fault.atlasUnavailable m
  | Fault.other d => Fault.atlasUnavailable (msgPromptFailed d)

/-- runAtlasPrompt: the orchestration boundary.  The sandbox check, profile
resolution, module availability check, endpoint acquisition and the page
open all run before the try block; the try body is wrapped by the catch
clause and the finally clause closes the page (its own error discarded).
The second component is the trace of page lifecycle events. -/
def runAtlasPrompt (env : RunEnv) (opts : RunOpts) :
    Except Fault AtlasPromptResult × List Ev :=
  if opts.sandboxed then
    (Except.error (Fault.atlasUnavailable msgSandboxed), [])
  else
    match env.profileResult with
    | Except.error f => (Except.error f, [])
    | Except.ok none => (Except.error (Fault.atlasUnavailable msgNoProfile), [])
    | Except.ok (some profile) =>
      if env.pwAvailable then
        match ensureAtlasCdpUrl env.cdp profile.cdpUrl with
        | Except.error f => (Except.error f, [])
        | Except.ok _cdpUrl =>
          match env.createPage with
          | Except.error f => (Except.error f, [])
          | Except.ok targetId =>
            let result :=
              match atlasTryBody env with
              | Except.ok r => Except.ok r
              | Except.error f => Except.error (wrapAtlasError f)
            (result, [Ev.pageOpened targetId, Ev.pageClosed targetId])
      else
        (Except.error (Fault.atlasUnavailable msgNoPlaywright), [])

/-- The ambient test-environment markers read by canUseAtlas: NODE_ENV
equal to test, and the truthiness of VITEST, VITEST_WORKER_ID and
JEST_WORKER_ID. -/
structure TestEnvMarkers where
  nodeEnvTest : Bool
  vitest : Bool
  vitestWorkerId : Bool
  jestWorkerId : Bool
  deriving DecidableEq, Repr

/-- canUseAtlas: false under any test-environment marker, false when the
caller is sandboxed, otherwise the truthiness of the resolved profile,
with any resolution fault swallowed into false. -/
def canUseAtlas (markers : TestEnvMarkers) (sandboxed : Bool)
    (profileResult : Except Fault (Option ProfileInfo)) : Bool :=
  if markers.nodeEnvTest || markers.vitest || markers.vitestWorkerId || markers.jestWorkerId then
    false
  else if sandboxed then
    false
  else
    match profileResult with
    | Except.ok p => p.isSome
    | Except.error _ => false

/-- A loosely typed JavaScript value as it can appear in a sync payload
device list slot. -/
inductive JsVal where
  | vnull
  | str (s : String)
  | num (n : Int)
  | boolean (b : Bool)
  | obj
  | arr (xs : List JsVal)

/-- The typeof rendering used in the non-array warning. -/
def typeofStr : JsVal → String
  | JsVal.vnull => "object"
  | JsVal.str _ => "string"
  | JsVal.num _ => "number"
  | JsVal.boolean _ => "boolean"
  | JsVal.obj => "object"
  | JsVal.arr _ => "object"

/-- Whether the value is null or undefined, the condition of the loose
equality input == null. -/
def JsVal.isNull : JsVal → Bool
  | JsVal.vnull => true
  | _ => false

/-- The filter predicate of sanitizeUserIdList: a string entry whose trim
is non-empty. -/
def isValidEntry : JsVal → Bool
  | JsVal.str s => (jsTrim s) ≠ ""
  | _ => false

def dropWarning (n : Nat) (label : String) : String :=
  "Dropping " ++ toString n ++ " invalid " ++ label ++ " entries from sync payload"

def typeWarning (label t : String) : String :=
  "Expected " ++ label ++ " list to be an array, got " ++ t

/-- sanitizeUserIdList: null and undefined yield the empty list silently;
a non-array input yields the empty list with the type warning; an array is
filtered down to its valid string entries, with a single count warning
when anything was dropped.  The second component collects the warnings in
emission order. -/
def sanitizeUserIdList (input : JsVal) (label : String) : List JsVal × List String :=
  match input with
  | JsVal.vnull => ([], [])
  | JsVal.arr xs =>
    if (xs.filter isValidEntry).length ≠ xs.length then
      (xs.filter isValidEntry,
        [dropWarning (xs.length - (xs.filter isValidEntry).length) label])
    else
      (xs.filter isValidEntry, [])
  | other => ([], [typeWarning label (typeofStr other)])

/-- A thrown JavaScript value at the matrix boundary: a plain string, an
Error instance with its message, or any other value. -/
inductive Thrown where
  | str (s : String)
  | error (name message : String)
  | otherVal
  deriving DecidableEq, Repr

/-- The message extraction of the wrapper catch clause: a thrown string is
its own message, an Error instance contributes its message field, anything
else contributes the empty string. -/
def thrownMessage : Thrown → String
  | Thrown.str s => s
  | Thrown.error _ m => m
  | Thrown.otherVal => ""

/-- Prefix test on character lists. -/
def charsHavePre : List Char → List Char → Bool
  | [], _ => true
  | _ :: _, [] => false
  | a :: as, b :: bs => a == b && charsHavePre as bs

/-- Infix test on character lists. -/
def charsHaveSub (pat : List Char) : List Char → Bool
  | [] => charsHavePre pat []
  | b :: bs => charsHavePre pat (b :: bs) || charsHaveSub pat bs

/-- Model of the JavaScript String.prototype.includes call. -/
def strIncludes (s pat : String) : Bool := charsHaveSub pat.toList s.toList

def expectStringPat : String := "Expect value to be String"

def changedLabel : String := "changed device list"

def leftLabel : String := "left device list"

def ignoreWarnMsg : String := "Ignoring malformed device list entries during crypto sync"

/-- The patched updateSyncData of createMatrixClient: sanitize the two
device lists, call the original update with the sanitized lists, and in
the catch clause swallow (with a warning) exactly the faults whose message
contains the known signature, rethrowing every other fault unchanged.  The
second component collects the warnings in emission order. -/
def updateSyncDataWrapper (original : List JsVal → List JsVal → Except Thrown Unit)
    (changed left : JsVal) : Except Thrown Unit × List String :=
  let sc := sanitizeUserIdList changed changedLabel
  let sl := sanitizeUserIdList left leftLabel
  match original sc.1 sl.1 with
  | Except.ok _ => (Except.ok (), sc.2 ++ sl.2)
  | Except.error err =>
    if strIncludes (thrownMessage err) expectStringPat then
      (Except.ok (), sc.2 ++ sl.2 ++ [ignoreWarnMsg])
    else
      (Except.error err, sc.2 ++ sl.2)

/-
Concrete inputs for the counterexamples and witnesses.
-/

def blankText : String := ""

def profileName : String := "openai-atlas"

def wsUrl : String := "ws://127.0.0.1:9222"

def promptText : String := "hi"

def helloText : String := "Hello"

def tid1 : String := "atlas-page-1"

def c1Desc : String := "Error: connect ECONNREFUSED 127.0.0.1:9222"

def resolveErrDesc : String := "Error: invalid browser config"

def sampleProfile : ProfileInfo := { name := profileName, cdpUrl := some wsUrl }

def okStatus : BrowserStatus := { running := true, cdpUrl := some wsUrl }

def okCdpEnv : CdpEnv :=
  { statusBefore := Except.ok okStatus
    startResult := Except.ok ()
    statusAfter := Except.ok okStatus }

def downStatus : BrowserStatus := { running := false, cdpUrl := none }

def downCdpEnv : CdpEnv :=
  { statusBefore := Except.ok downStatus
    startResult := Except.ok ()
    statusAfter := Except.ok downStatus }

def baseRunEnv : RunEnv :=
  { profileResult := Except.ok (some sampleProfile)
    pwAvailable := true
    cdp := okCdpEnv
    createPage := Except.ok tid1
    getPage := Except.ok ()
    loadStateResult := Except.ok ()
    findInput := Except.ok ()
    baselineCount := Except.ok 0
    fillResult := Except.ok ()
    waitMessage := Except.ok ()
    stableText := helloText
    elapsedMs := 1234
    closeResult := Except.ok () }

def mainOpts : RunOpts :=
  { sandboxed := false, prompt := promptText, timeoutMs := 30000, url := none }

def c1Env : RunEnv := { baseRunEnv with createPage := Except.error (Fault.other c1Desc) }

def c6Profile : ProfileInfo := { name := profileName, cdpUrl := none }

def c6Env : RunEnv :=
  { baseRunEnv with profileResult := Except.ok (some c6Profile), cdp := downCdpEnv }

def c3List : List String := ["a", "a", "b", "b", "b", "b"]

def c3Samples : Nat → String := fun i => c3List.getD i blankText

def emptySamples : Nat → String := fun _ => blankText

def textB : String := "b"

def c5Env : Nat → SelectorBehavior := fun i =>
  if i = 3 then { visibleAt := some 2100, enabled := true }
  else { visibleAt := none, enabled := false }

def c5AllNone : Nat → SelectorBehavior := fun _ => { visibleAt := none, enabled := false }

def c5Visible : Nat → SelectorBehavior := fun _ => { visibleAt := some 0, enabled := true }

def c9ErrText : String := "Expect value to be String at index 0"

def c9OtherText : String := "boom"

def c9TypeErrName : String := "TypeError"

def c9Original : List JsVal → List JsVal → Except Thrown Unit :=
  fun _ _ => Except.error (Thrown.str c9ErrText)

def c9OtherOriginal : List JsVal → List JsVal → Except Thrown Unit :=
  fun _ _ => Except.error (Thrown.error c9TypeErrName c9OtherText)

def quietMarkers : TestEnvMarkers :=
  { nodeEnvTest := false, vitest := false, vitestWorkerId := false, jestWorkerId := false }

def vitestMarkers : TestEnvMarkers :=
  { nodeEnvTest := false, vitest := true, vitestWorkerId := false, jestWorkerId := false }

def okProfileRes : Except Fault (Option ProfileInfo) := Except.ok (some sampleProfile)

def errProfileRes : Except Fault (Option ProfileInfo) :=
  Except.error (Fault.other resolveErrDesc)

/-
Helper lemmas.
-/

/-- Every error ensureAtlasCdpUrl produces is an AtlasUnavailableError. -/
theorem ensureAtlasCdpUrl_error_unavailable (cenv : CdpEnv) (purl : Option String)
    (f : Fault) (h : ensureAtlasCdpUrl cenv purl = Except.error f) :
    ∃ m, f = Fault.atlasUnavailable m := by
  unfold ensureAtlasCdpUrl at h
  split at h
  · simp at h
  · simp at h
    exact ⟨_, h.symm⟩
  · simp at h
    exact ⟨_, h.symm⟩

/-- The catch clause of runAtlasPrompt always yields an
AtlasUnavailableError. -/
theorem wrapAtlasError_unavailable (f : Fault) :
    ∃ m, wrapAtlasError f = Fault.atlasUnavailable m := by
  cases f with
  | atlasUnavailable m => exact ⟨m, rfl⟩
  | other d => exact ⟨msgPromptFailed d, rfl⟩

/-- Shape of the event trace of one run: either no page was opened, or the
page-open succeeded and the trace is exactly one open followed by one
close of the same target. -/
theorem runAtlasPrompt_trace_shape (env : RunEnv) (opts : RunOpts) :
    (runAtlasPrompt env opts).2 = [] ∨
      ∃ tid, env.createPage = Except.ok tid ∧
        (runAtlasPrompt env opts).2 = [Ev.pageOpened tid, Ev.pageClosed tid] := by
  unfold runAtlasPrompt
  cases hsb : opts.sandboxed with
  | true => simp
  | false =>
    cases hpr : env.profileResult with
    | error f => simp
    | ok po =>
      cases po with
      | none => simp
      | some profile =>
        cases hpw : env.pwAvailable with
        | false => simp
        | true =>
          cases hcdp : ensureAtlasCdpUrl env.cdp profile.cdpUrl with
          | error f => simp [hcdp]
          | ok u =>
            cases hcp : env.createPage with
            | error f => simp [hcdp]
            | ok tid =>
              right
              refine ⟨tid, rfl, ?_⟩
              simp [hcdp]

/-- Result text of the stability loop when the stability branch never
fires: the last trimmed sample, or the incoming previous sample when no
sample remains. -/
theorem readStableLoop_not_stable (l : List String) (last : String) (ticks : Nat)
    (h : (readStableLoop l last ticks).stable = false) :
    (readStableLoop l last ticks).text = (l.map jsTrim).getLastD last := by
  induction l generalizing last ticks with
  | nil => simp [readStableLoop]
  | cons a rest ih =>
    rw [readStableLoop] at h ⊢
    split at h
    · simp at h
    · next hcond =>
      rw [if_neg hcond]
      rw [List.map_cons, List.getLastD_cons]
      exact ih _ _ h

/-- A successful scan returns a strategy from the candidate list whose
element is enabled and was visible no later than the returned time. -/
theorem findPromptInputGo_ok (env : Nat → SelectorBehavior) (deadline : Nat)
    (l : List Nat) (t i tf : Nat)
    (h : findPromptInputGo env deadline l t = Except.ok (i, tf)) :
    i ∈ l ∧ (env i).enabled = true ∧
      ∃ vt, (env i).visibleAt = some vt ∧ vt ≤ tf := by
  induction l generalizing t with
  | nil => simp [findPromptInputGo] at h
  | cons j rest ih =>
    rw [findPromptInputGo] at h
    split at h
    · simp at h
    · split at h
      · next tFound hw =>
        split at h
        · next hen =>
          simp at h
          obtain ⟨hji, htf⟩ := h
          subst hji
          subst htf
          refine ⟨List.mem_cons_self _ _, hen, ?_⟩
          unfold waitForVisible at hw
          split at hw
          · next vt hv =>
            split at hw
            · next hle =>
              simp at hw
              exact ⟨vt, hv, by omega⟩
            · simp at hw
          · simp at hw
        · next hen =>
          have hr := ih _ h
          exact ⟨List.mem_cons_of_mem _ hr.1, hr.2⟩
      · next hw =>
        have hr := ih _ h
        exact ⟨List.mem_cons_of_mem _ hr.1, hr.2⟩

/-- When every candidate strategy is never visible or disabled, the scan
exhausts the list and fails with the sign-in message. -/
theorem findPromptInputGo_allfail (env : Nat → SelectorBehavior) (deadline : Nat)
    (l : List Nat) (t : Nat)
    (hall : ∀ i ∈ l, (env i).visibleAt = none ∨ (env i).enabled = false) :
    findPromptInputGo env deadline l t =
      Except.error (Fault.atlasUnavailable inputNotFoundMsg) := by
  induction l generalizing t with
  | nil => rfl
  | cons j rest ih =>
    rw [findPromptInputGo]
    split
    · rfl
    · rcases hall j (List.mem_cons_self j rest) with hv | he
      · have hw : waitForVisible (env j) t (selectorWait deadline t) = none := by
          simp [waitForVisible, hv]
        rw [hw]
        exact ih _ (fun i hi => hall i (List.mem_cons_of_mem _ hi))
      · cases hw : waitForVisible (env j) t (selectorWait deadline t) with
        | none => exact ih _ (fun i hi => hall i (List.mem_cons_of_mem _ hi))
        | some tFound =>
          rw [he]
          simp only [Bool.false_eq_true, if_false]
          exact ih _ (fun i hi => hall i (List.mem_cons_of_mem _ hi))

/-- A first strategy already visible at call start and enabled wins
immediately, whatever the budget and the later strategies. -/
theorem findPromptInput_first_visible (env : Nat → SelectorBehavior) (timeoutMs : Nat)
    (hv : (env 0).visibleAt = some 0) (he : (env 0).enabled = true) :
    findPromptInput env timeoutMs = Except.ok (0, 0) := by
  unfold findPromptInput
  rw [findPromptInputGo]
  have hwz : ¬ selectorWait (max 2000 timeoutMs) 0 = 0 := by
    unfold selectorWait
    omega
  rw [if_neg hwz]
  have hvis : waitForVisible (env 0) 0 (selectorWait (max 2000 timeoutMs) 0) = some 0 := by
    simp [waitForVisible, hv]
  rw [hvis, he]
  simp

/-- Counting the filtered length against the count of rejected entries. -/
theorem length_filter_add_countP_not (p : JsVal → Bool) (xs : List JsVal) :
    (xs.filter p).length + xs.countP (fun v => !(p v)) = xs.length := by
  induction xs with
  | nil => rfl
  | cons a l ih =>
    cases hp : p a <;> simp [List.filter_cons, List.countP_cons, hp] <;> omega

/-
Claim theorems.
-/

/-- Claim C1, counterexample: with every stage healthy but the page-open
call (createPageViaPlaywright) rejecting with a raw connection error,
runAtlasPrompt propagates that raw fault to the caller unchanged, not as
an AtlasUnavailableError: the page open sits before the try block. -/
theorem runAtlasPrompt_raw_fault_escapes :
    (runAtlasPrompt c1Env mainOpts).1 = Except.error (Fault.other c1Desc) := rfl

/-- Claim C1, amended: every failure runAtlasPrompt raises is the single
Unavailable kind, except that a raw fault can reach the caller only when
it was thrown by profile resolution or by the page-open call, both of
which run before the orchestration try block; such a fault is passed
through unchanged. -/
theorem runAtlasPrompt_nonUnavailable_only_from_resolve_or_open
    (env : RunEnv) (opts : RunOpts) (d : String)
    (h : (runAtlasPrompt env opts).1 = Except.error (Fault.other d)) :
    env.profileResult = Except.error (Fault.other d) ∨
      env.createPage = Except.error (Fault.other d) := by
  unfold runAtlasPrompt at h
  cases hsb : opts.sandboxed with
  | true => rw [hsb] at h; simp at h
  | false =>
    rw [hsb] at h
    simp only [Bool.false_eq_true, if_false] at h
    cases hpr : env.profileResult with
    | error f =>
      rw [hpr] at h
      simp at h
      subst h
      exact Or.inl rfl
    | ok po =>
      rw [hpr] at h
      cases po with
      | none => simp at h
      | some profile =>
        simp only [] at h
        cases hpw : env.pwAvailable with
        | false => rw [hpw] at h; simp at h
        | true =>
          rw [hpw] at h
          simp only [if_true] at h
          cases hcdp : ensureAtlasCdpUrl env.cdp profile.cdpUrl with
          | error f =>
            rw [hcdp] at h
            simp at h
            obtain ⟨m, hm⟩ := ensureAtlasCdpUrl_error_unavailable _ _ _ hcdp
            rw [hm] at h
            simp at h
          | ok u =>
            rw [hcdp] at h
            cases hcp : env.createPage with
            | error f =>
              rw [hcp] at h
              simp at h
              subst h
              exact Or.inr rfl
            | ok tid =>
              rw [hcp] at h
              simp only [] at h
              cases hb : atlasTryBody env with
              | ok r => rw [hb] at h; simp at h
              | error f =>
                rw [hb] at h
                simp at h
                obtain ⟨m, hm⟩ := wrapAtlasError_unavailable f
                rw [hm] at h
                simp at h

/-- Claim C1, witness for the amended theorem at a concrete run whose
page-open call rejects. -/
theorem runAtlasPrompt_nonUnavailable_only_from_resolve_or_open_witness :
    c1Env.profileResult = Except.error (Fault.other c1Desc) ∨
      c1Env.createPage = Except.error (Fault.other c1Desc) :=
  runAtlasPrompt_nonUnavailable_only_from_resolve_or_open c1Env mainOpts c1Desc rfl

/-- Claim C2: whenever a run opened a page (an open event is on the
trace), the trace is exactly that open followed by one close of the same
target, on every exit path; and the run result is unaffected by the
outcome of the close call, whose error the source discards. -/
theorem runAtlasPrompt_closes_page_once (env : RunEnv) (opts : RunOpts) (tid : String)
    (h : Ev.pageOpened tid ∈ (runAtlasPrompt env opts).2) :
    (runAtlasPrompt env opts).2 = [Ev.pageOpened tid, Ev.pageClosed tid] ∧
      ∀ c, runAtlasPrompt { env with closeResult := c } opts = runAtlasPrompt env opts := by
  constructor
  · rcases runAtlasPrompt_trace_shape env opts with hsh | ⟨tid0, _, hsh⟩
    · rw [hsh] at h
      simp at h
    · rw [hsh] at h
      simp at h
      rw [hsh, h]
  · intro c
    cases env
    rfl

/-- Claim C2, witness: a concrete successful run opens and closes exactly
one page. -/
theorem runAtlasPrompt_closes_page_once_witness :
    (runAtlasPrompt baseRunEnv mainOpts).2 = [Ev.pageOpened tid1, Ev.pageClosed tid1] :=
  (runAtlasPrompt_closes_page_once baseRunEnv mainOpts tid1 (by decide)).1

/-- Claim C3: on the sample sequence a, a, b, b, b, b the stability reader
returns b through the stability branch exactly at the sixth sample, the
fourth consecutive b (a budget of 2400 ms grants exactly six 400 ms
spaced samples); with a budget of 2000 ms, which grants only the first
five samples, the stability branch never fires. -/
theorem readStableText_fourth_sample :
    readStableTextFull c3Samples 2400 = { text := textB, consumed := 6, stable := true } ∧
      (readStableTextFull c3Samples 2000).stable = false ∧
      readStableText c3Samples 2400 = textB :=
  ⟨rfl, rfl, rfl⟩

/-- Claim C4: the stability reader is a total function (it never raises by
construction), and whenever the budget runs out before the stability
branch fires it returns the last trimmed sample observed, the default
empty string when the budget allowed no sample at all. -/
theorem readStableText_timeout_returns_last (samples : Nat → String) (timeoutMs : Nat)
    (h : (readStableTextFull samples timeoutMs).stable = false) :
    readStableText samples timeoutMs =
      ((sampleList samples timeoutMs).map jsTrim).getLastD "" :=
  readStableLoop_not_stable _ _ _ h

/-- Claim C4, witness: a stream of empty reads never stabilises and the
reader returns the empty string. -/
theorem readStableText_timeout_returns_last_witness :
    readStableText emptySamples 1200 = blankText :=
  (readStableText_timeout_returns_last emptySamples 1200 rfl).trans rfl

/-- Claim C5, counterexample: with a zero budget the shared deadline is
max 2000 0 = 2000, the first three strategies time out (consuming 2000
then 500 then 500 ms because each wait is clamped to at least 500 ms) and
the fourth strategy still succeeds at 3000 ms, after the deadline has
passed, so passage of the deadline is not a failure condition. -/
theorem findPromptInput_succeeds_past_deadline :
    findPromptInput c5Env 0 = Except.ok (3, 3000) ∧ max 2000 0 < 3000 :=
  ⟨rfl, by decide⟩

/-- Claim C5, amended: the input locator scans the four strategies in
fixed priority order against the shared deadline max 2000 timeoutMs with
per-strategy wait min 2500 (max 500 remaining): a success always is a
strategy from the list, enabled, whose element was visible by the returned
time; a strategy set that is never visible or disabled makes it fail with
the sign-in message once all strategies are exhausted; and the first
strategy, when immediately visible and enabled, wins at once.  Passing the
deadline alone never causes failure, since each wait is clamped to at
least 500 ms (see the counterexample). -/
theorem findPromptInput_strategy_scan (env : Nat → SelectorBehavior) (timeoutMs : Nat) :
    (∀ i tf, findPromptInput env timeoutMs = Except.ok (i, tf) →
        i < 4 ∧ (env i).enabled = true ∧
          ∃ vt, (env i).visibleAt = some vt ∧ vt ≤ tf) ∧
    ((∀ i, i < 4 → (env i).visibleAt = none ∨ (env i).enabled = false) →
        findPromptInput env timeoutMs =
          Except.error (Fault.atlasUnavailable inputNotFoundMsg)) ∧
    ((env 0).visibleAt = some 0 → (env 0).enabled = true →
        findPromptInput env timeoutMs = Except.ok (0, 0)) := by
  refine ⟨?_, ?_, ?_⟩
  · intro i tf h
    have hr := findPromptInputGo_ok env (max 2000 timeoutMs) [0, 1, 2, 3] 0 i tf h
    refine ⟨?_, hr.2⟩
    have hm := hr.1
    simp at hm
    omega
  · intro hall
    refine findPromptInputGo_allfail env _ [0, 1, 2, 3] 0 (fun i hi => hall i ?_)
    simp at hi
    omega
  · exact findPromptInput_first_visible env timeoutMs

/-- Claim C5, witness for the amended theorem: exhaustion fails with the
sign-in message, an immediately visible and enabled first strategy returns
at once, and the strategy returned in the past-deadline counterexample is
indeed enabled. -/
theorem findPromptInput_strategy_scan_witness :
    findPromptInput c5AllNone 1000 =
        Except.error (Fault.atlasUnavailable inputNotFoundMsg) ∧
      findPromptInput c5Visible 1000 = Except.ok (0, 0) ∧
      (c5Env 3).enabled = true :=
  ⟨(findPromptInput_strategy_scan c5AllNone 1000).2.1 (fun i _ => Or.inl rfl),
   (findPromptInput_strategy_scan c5Visible 1000).2.2 rfl rfl,
   ((findPromptInput_strategy_scan c5Env 0).1 3 3000 rfl).2.1⟩

/-- Claim C6: when the run reaches the endpoint stage and the browser
stays not running after the start request while neither the re-queried
status nor the profile carries a non-empty trimmed CDP URL, runAtlasPrompt
raises the Unavailable error stating that the profile has no CDP URL (the
endpoint is unreachable), and the event trace is empty: no page was opened
or left open. -/
theorem runAtlasPrompt_unreachable_endpoint
    (env : RunEnv) (opts : RunOpts) (p : ProfileInfo) (s1 s2 : BrowserStatus)
    (hsb : opts.sandboxed = false)
    (hpr : env.profileResult = Except.ok (some p))
    (hpw : env.pwAvailable = true)
    (h1 : env.cdp.statusBefore = Except.ok s1)
    (hr1 : s1.running = false)
    (h2 : env.cdp.startResult = Except.ok ())
    (h3 : env.cdp.statusAfter = Except.ok s2)
    (hr2 : s2.running = false)
    (hu2 : optTrim s2.cdpUrl = "")
    (hup : optTrim p.cdpUrl = "") :
    (runAtlasPrompt env opts).1 = Except.error (Fault.atlasUnavailable msgNoCdpUrl) ∧
      (runAtlasPrompt env opts).2 = [] := by
  have hens : ensureAtlasCdpUrl env.cdp p.cdpUrl =
      Except.error (Fault.atlasUnavailable msgNoCdpUrl) := by
    unfold ensureAtlasCdpUrl ensureAtlasCdpUrlBody
    simp [h1, hr1, h2, h3, hu2, hup, jsOr, Bind.bind, Except.bind, Pure.pure, Except.pure]
  unfold runAtlasPrompt
  rw [hsb, hpr, hpw]
  simp [hens]

/-- Claim C6, witness at a concrete environment whose browser never runs
and whose profile has no stored CDP URL. -/
theorem runAtlasPrompt_unreachable_endpoint_witness :
    (runAtlasPrompt c6Env mainOpts).1 =
      Except.error (Fault.atlasUnavailable msgNoCdpUrl) :=
  (runAtlasPrompt_unreachable_endpoint c6Env mainOpts c6Profile downStatus downStatus
    rfl rfl rfl rfl rfl rfl rfl rfl rfl rfl).1

/-- Claim C7: sanitizing an array keeps exactly the entries that are
strings with non-empty trim, the output length is the total count minus
the count of rejected entries, and exactly one warning stating that count
is recorded when anything was dropped, none otherwise. -/
theorem sanitizeUserIdList_array_spec (xs : List JsVal) (label : String) :
    (sanitizeUserIdList (JsVal.arr xs) label).1 = xs.filter isValidEntry ∧
      (sanitizeUserIdList (JsVal.arr xs) label).1.length
        = xs.length - xs.countP (fun v => !(isValidEntry v)) ∧
      (sanitizeUserIdList (JsVal.arr xs) label).2 =
        (if xs.countP (fun v => !(isValidEntry v)) = 0 then []
         else [dropWarning (xs.countP (fun v => !(isValidEntry v))) label]) := by
  have hlen := length_filter_add_countP_not isValidEntry xs
  unfold sanitizeUserIdList
  by_cases hN : xs.countP (fun v => !(isValidEntry v)) = 0
  · have heq : (xs.filter isValidEntry).length = xs.length := by omega
    simp [heq, hN] <;> omega
  · have hne : ¬ (xs.filter isValidEntry).length = xs.length := by omega
    have harg : xs.length - (xs.filter isValidEntry).length
        = xs.countP (fun v => !(isValidEntry v)) := by omega
    simp [hne, hN, harg] <;> omega

/-- Claim C8, counterexample: a null device list yields the empty output
with no warning recorded, against the claim that every non-array input,
null included, records a warning. -/
theorem sanitizeUserIdList_null_silent :
    sanitizeUserIdList JsVal.vnull changedLabel = ([], []) := rfl

/-- Claim C8, amended: every non-array input yields the empty output and
the sanitizer never raises (it is a total function); a warning is recorded
exactly for the non-array inputs that are not null or undefined, while a
null or undefined input is silent. -/
theorem sanitizeUserIdList_nonarray (input : JsVal) (label : String)
    (h : ∀ xs, input ≠ JsVal.arr xs) :
    sanitizeUserIdList input label =
      ([], if input.isNull then [] else [typeWarning label (typeofStr input)]) := by
  cases input with
  | vnull => rfl
  | str s => rfl
  | num n => rfl
  | boolean b => rfl
  | obj => rfl
  | arr xs => exact absurd rfl (h xs)

/-- Claim C8, witness for the amended theorem at a concrete non-array
non-null input. -/
theorem sanitizeUserIdList_nonarray_witness :
    sanitizeUserIdList JsVal.obj changedLabel =
      ([], [typeWarning changedLabel (typeofStr JsVal.obj)]) :=
  (sanitizeUserIdList_nonarray JsVal.obj changedLabel
    (fun xs hx => JsVal.noConfusion hx)).trans rfl

/-- Claim C9: when the wrapped update call rejects, the wrapper swallows
the fault and records the ignore warning exactly when the extracted
message contains the known signature, returning as a successful no-op
update; any other fault propagates to the caller unchanged. -/
theorem updateSyncDataWrapper_error_filter
    (original : List JsVal → List JsVal → Except Thrown Unit)
    (changed left : JsVal) (err : Thrown)
    (h : original (sanitizeUserIdList changed changedLabel).1
        (sanitizeUserIdList left leftLabel).1 = Except.error err) :
    (strIncludes (thrownMessage err) expectStringPat = true →
        updateSyncDataWrapper original changed left =
          (Except.ok (), (sanitizeUserIdList changed changedLabel).2
            ++ (sanitizeUserIdList left leftLabel).2 ++ [ignoreWarnMsg])) ∧
    (strIncludes (thrownMessage err) expectStringPat = false →
        updateSyncDataWrapper original changed left =
          (Except.error err, (sanitizeUserIdList changed changedLabel).2
            ++ (sanitizeUserIdList left leftLabel).2)) := by
  constructor <;> intro hs <;> simp only [updateSyncDataWrapper] <;> rw [h] <;> simp [hs]

/-- Claim C9, witness: a rejection carrying the known signature is
swallowed into a warned no-op, a TypeError with another message passes
through unchanged. -/
theorem updateSyncDataWrapper_error_filter_witness :
    updateSyncDataWrapper c9Original JsVal.vnull JsVal.vnull =
        (Except.ok (), [ignoreWarnMsg]) ∧
      updateSyncDataWrapper c9OtherOriginal JsVal.vnull JsVal.vnull =
        (Except.error (Thrown.error c9TypeErrName c9OtherText), []) :=
  ⟨((updateSyncDataWrapper_error_filter c9Original JsVal.vnull JsVal.vnull
      (Thrown.str c9ErrText) rfl).1 (by decide)).trans rfl,
   ((updateSyncDataWrapper_error_filter c9OtherOriginal JsVal.vnull JsVal.vnull
      (Thrown.error c9TypeErrName c9OtherText) rfl).2 (by decide)).trans rfl⟩

/-- Claim C10: canUseAtlas, a total boolean function (so it never raises),
returns false under any set test-environment marker regardless of the
profile result, false whenever the caller declares itself sandboxed, and
false whenever profile resolution threw. -/
theorem canUseAtlas_gate (markers : TestEnvMarkers) (sandboxed : Bool)
    (profileResult : Except Fault (Option ProfileInfo)) :
    ((markers.nodeEnvTest || markers.vitest
        || markers.vitestWorkerId || markers.jestWorkerId) = true →
      canUseAtlas markers sandboxed profileResult = false) ∧
    (sandboxed = true → canUseAtlas markers sandboxed profileResult = false) ∧
    (∀ f, profileResult = Except.error f →
      canUseAtlas markers sandboxed profileResult = false) := by
  refine ⟨?_, ?_, ?_⟩
  · intro h
    simp [canUseAtlas, h]
  · intro h
    subst h
    unfold canUseAtlas
    split
    · rfl
    · rfl
  · intro f hf
    unfold canUseAtlas
    rw [hf]
    split
    · rfl
    · split
      · rfl
      · rfl

/-- Claim C10, witness: a vitest marker, a sandboxed caller and a throwing
profile resolution each force false. -/
theorem canUseAtlas_gate_witness :
    canUseAtlas vitestMarkers false okProfileRes = false ∧
      canUseAtlas quietMarkers true okProfileRes = false ∧
      canUseAtlas quietMarkers false errProfileRes = false :=
  ⟨(canUseAtlas_gate vitestMarkers false okProfileRes).1 rfl,
   (canUseAtlas_gate quietMarkers true okProfileRes).2.1 rfl,
   (canUseAtlas_gate quietMarkers false errProfileRes).2.2 (Fault.other resolveErrDesc) rfl⟩

end OpenClaw
